import Mathlib

/-!
Verification development for `extrainterpreters.py` (module
`extrainterpreters`): a shallow embedding of the shared-buffer call
dispatcher (`Interpreter.execute` / `run` / `done` / `result`), the worker
lifecycle (`start` / `close`), and the environment replicator
(`_source_handle` / `_handle_module` / `_prepare_interactive`), together
with theorems settling the frozen specification claims.

Conventions of the embedding:
* the mmap over the backing file is a byte function `Nat → Nat` plus an
  explicit cursor (`seek`/`tell`), mutated by explicit state passing;
* `pickle` is an external collaborator; it is modelled by a concrete
  executable codec (`enc`/`dec`) over a small universe `PyVal` of
  serializable Python values, with the same interface shape the source
  relies on: `dump` writes a self-delimiting encoding at the cursor and
  advances it, `load` reads one object sequentially from the cursor and
  fails on invalid data;
* the isolation primitive (`interpreters.create/destroy/run_string`) is an
  external collaborator: `run_string` triggering `_call(0)` is a parameter
  of `execute` (its outcome is what the claims quantify over), and
  `destroy` is modelled on an explicit world of live sub-interpreter ids;
* Python exceptions become `Except` results; where the source mutates
  state before raising, the error value carries the state at the raise.
-/

/-! ### Channel constants (source lines 27–30) -/

def BFSZ : Nat := 10000000

def RET_OFFSET : Nat := 8000000

def PAYLOAD_BUFFER : Nat := RET_OFFSET

def RETURN_BUFFER : Nat := BFSZ - RET_OFFSET

/-! ### Byte sequences

Encoded byte strings are represented by a length plus a byte-at-index
function, so that multi-megabyte payloads (needed by the size claims) stay
evaluable without materialising lists. -/

structure Bytes where
  size : Nat
  byteAt : Nat → Nat

def Bytes.ofList (l : List Nat) : Bytes :=
  ⟨l.length, fun i => l.getD i 0⟩

def Bytes.app (a b : Bytes) : Bytes :=
  ⟨a.size + b.size, fun i => if i < a.size then a.byteAt i else b.byteAt (i - a.size)⟩

/-! ### Serializable values

The universe of Python values the model ships through the channel.
Sequences (tuples/lists) are cons cells; `blobRun len b` stands for a
`bytes` object of `len` copies of the byte `b` (enough expressiveness for
every concrete payload the claims need, while keeping equality decidable).
A callable is sent by reference, as pickle does for importable functions;
it carries its `__module__` attribute, which `execute` inspects. -/

inductive PyVal where
  | noneV
  | natV (n : Nat)
  | funcRef (id : Nat) (module : String)
  | blobRun (len b : Nat)
  | nilV
  | consV (hd tl : PyVal)
deriving DecidableEq

/-- Python truthiness, as used by `kwargs = kwargs or {}` (source line 229). -/
def PyVal.truthy : PyVal → Bool
  | .noneV => false
  | .natV n => n != 0
  | .funcRef _ _ => true
  | .blobRun len _ => len != 0
  | .nilV => false
  | .consV _ _ => true

/-- `getattr(obj, "__module__", None)` (source line 220): only function
objects carry a module attribute in this universe. -/
def PyVal.moduleAttr : PyVal → Option String
  | .funcRef _ m => some m
  | _ => none

/-! ### The stand-in pickle codec

A length-implicit, sequential, self-delimiting object format (spec §4.2).
Each object is one tag byte followed by its fields; a `blobRun`'s content
bytes are written out in full (so an oversized payload really does
overwrite later regions of the buffer), while decoding reads the header
and skips over the content. Tag 0 — the zero-fill of a fresh buffer — is
not a valid object, as in pickle. -/

def natEnc (n : Nat) : List Nat :=
  [n % 256, n / 256 % 256, n / 65536 % 256, n / 16777216 % 256]

def natDec (m : Nat → Nat) (pos : Nat) : Nat :=
  m pos + 256 * m (pos + 1) + 65536 * m (pos + 2) + 16777216 * m (pos + 3)

def strEnc (s : String) : List Nat :=
  natEnc s.length ++ s.data.map Char.toNat

def strDec (m : Nat → Nat) (pos : Nat) : String × Nat :=
  let len := natDec m pos
  (String.mk ((List.range len).map fun j => Char.ofNat (m (pos + 4 + j))), pos + 4 + len)

def enc : PyVal → Bytes
  | .noneV => Bytes.ofList [1]
  | .natV n => Bytes.ofList ([2] ++ natEnc n)
  | .funcRef id mod => Bytes.ofList ([3] ++ natEnc id ++ strEnc mod)
  | .blobRun len b => (Bytes.ofList ([4] ++ natEnc len ++ natEnc b)).app ⟨len, fun _ => b⟩
  | .nilV => Bytes.ofList [5]
  | .consV h t => (Bytes.ofList [6]).app ((enc h).app (enc t))

/-- Recursion-depth bound of the model decoder (pickle's recursion is
bounded by the Python recursion limit). -/
def DEC_FUEL : Nat := 64

/-- Sequential decode of one object from the buffer at `pos`
(`pickle.load` after a `seek(pos)`): returns the value and the cursor
after it, or `none` on invalid data (an `UnpicklingError`). -/
def dec (m : Nat → Nat) : Nat → Nat → Option (PyVal × Nat)
  | 0, _ => none
  | fuel + 1, pos =>
    match m pos with
    | 1 => some (.noneV, pos + 1)
    | 2 => some (.natV (natDec m (pos + 1)), pos + 5)
    | 3 =>
      let sp := strDec m (pos + 5)
      some (.funcRef (natDec m (pos + 1)) sp.1, sp.2)
    | 4 => some (.blobRun (natDec m (pos + 1)) (natDec m (pos + 5)), pos + 9 + natDec m (pos + 1))
    | 5 => some (.nilV, pos + 1)
    | 6 =>
      match dec m fuel (pos + 1) with
      | none => none
      | some (h, p1) =>
        match dec m fuel p1 with
        | none => none
        | some (t, p2) => some (.consV h t, p2)
    | _ => none

/-! ### Interpreter state (the mutable attributes of one `Interpreter`) -/

/-- The `self.intno` field: `None` before `start()`, a sub-interpreter id
while open, and the sentinel `False` after `close()` (source line 85). -/
inductive IntNo where
  | noneV
  | idV (n : Nat)
  | falseV
deriving DecidableEq

def IntNo.isNoneV : IntNo → Bool
  | .noneV => true
  | _ => false

/-- Python exceptions surfaced by the modelled operations. -/
inductive PyErr where
  | notStartedError
  | alreadyStarted
  | payloadTooLarge
  | runFailed (e : Nat)
  | destroyError
  | attrError
  | fileNotFound
  | nameError
  | unpicklingError
  | invalidState
deriving DecidableEq

/-- The mutable state of one `Interpreter` object.  `map` keeps the byte
contents of the mmap; `mapLive` records whether `self.map` is still an
mmap object (`close()` sets `self.map = None`, making it `false`). -/
structure IState where
  intno : IntNo
  map : Nat → Nat
  mapPos : Nat
  mapLive : Bool
  fileLinked : Bool
  thread : Bool
  registered : Bool
  exc : Option Nat

/-- Overwrite `d.size` bytes of the buffer starting at `pos`
(one `write` call on the mmap at the cursor). -/
def writeBytes (m : Nat → Nat) (pos : Nat) (d : Bytes) : Nat → Nat :=
  fun i => if pos ≤ i ∧ i < pos + d.size then d.byteAt (i - pos) else m i

/-- `self.map[off] = v` (single-byte store). -/
def setByte (m : Nat → Nat) (off v : Nat) : Nat → Nat :=
  fun i => if i = off then v else m i

/-! ### The call dispatcher (`execute`, source lines 204–250) -/

/-- Controller-side effects recorded while dispatching. -/
inductive Effect where
  | prepareMain
  | triggerRun (code : String)
deriving DecidableEq

/-- One `pickle.dump(obj, self.map)` at the cursor.  If the encoding does
not fit in the remaining `BFSZ` bytes the mmap write raises `ValueError`
(caught by the source, which sets `_failed = True` — returned here as the
Boolean); the model treats the dump as a single write, so nothing is
written in that case. -/
def dumpStep (s : IState) (v : PyVal) : IState × Bool :=
  let d := enc v
  if s.mapPos + d.size ≤ BFSZ then
    ({ s with map := writeBytes s.map s.mapPos d, mapPos := s.mapPos + d.size }, false)
  else
    (s, true)

/-- The `for obj in (func, args, kwargs)` loop (source lines 232–238):
dump each object, and after each one raise the payload-size `RuntimeError`
if the dump failed or the cursor reached `BFSZ - RET_OFFSET`.  Note the
source compares against `BFSZ - RET_OFFSET` (the *return* region size,
2,000,000), not the payload capacity `RET_OFFSET`, and only checks after
the bytes are already in the buffer.  On error the state at the raise is
returned. -/
def dumpLoop : IState → List PyVal → Except IState IState
  | s, [] => .ok s
  | s, v :: rest =>
    let sf := dumpStep s v
    if sf.2 || decide (BFSZ - RET_OFFSET ≤ sf.1.mapPos) then .error sf.1
    else dumpLoop sf.1 rest

/-- Everything `execute` does before triggering the remote `_call(0)`
(source lines 214–241).

* Lines 219–227 re-resolve or replicate callables whose `__module__` is
  `"__main__"`; that machinery is modelled in detail by the replicator
  definitions below and abstracted here as the effect `Effect.prepareMain`
  (every dispatch claim concerns importable callables, for which the
  branch is not taken).
* Line 228 reads `self.map[RET_OFFSET] == 0`: an equality *test* whose
  result is discarded — not an assignment — so the completion-flag byte is
  left unchanged and the model performs no write here. -/
def executeWrite (s : IState) (func args kwargs : PyVal) :
    List Effect × Except (PyErr × IState) IState :=
  if s.intno.isNoneV then ([], .error (.notStartedError, s))
  else
    let eff := if func.moduleAttr = some "__main__" then [Effect.prepareMain] else []
    if ¬ s.mapLive then (eff, .error (.attrError, s))
    else
      let kw := if kwargs.truthy then kwargs else PyVal.nilV
      let s1 := { s with mapPos := 0 }
      match dumpLoop s1 [func, args, kw] with
      | .error sErr => (eff, .error (.payloadTooLarge, sErr))
      | .ok s2 => (eff, .ok s2)

/-- `Interpreter.execute` (source lines 204–250): the write phase above,
then `interpreters.run_string(self.intno, "_call(0)")`.  The remote
trigger is the external collaborator: given the shared buffer it either
returns the buffer as rewritten by the worker, or fails with a
`RunFailedError` (carrying a diagnostic code).  On trigger failure the
source sets `self.map[RET_OFFSET] = True` (byte 1), stores the error in
`self.exception`, and re-raises (lines 246–250). -/
def execute (trigger : (Nat → Nat) → Except Nat (Nat → Nat)) (s : IState)
    (func args kwargs : PyVal) : List Effect × Except (PyErr × IState) IState :=
  match executeWrite s func args kwargs with
  | (eff, .error e) => (eff, .error e)
  | (eff, .ok s2) =>
    (eff ++ [Effect.triggerRun "_call(0)"],
      match trigger s2.map with
      | .ok m2 => .ok { s2 with map := m2 }
      | .error e =>
        .error (.runFailed e,
          { s2 with map := setByte s2.map RET_OFFSET 1, exc := some e }))

/-- `Interpreter.done` (source lines 269–271): a single non-blocking read
of the completion-flag byte (`self.map[RET_OFFSET] != 0`); subscripting a
closed (`None`) map would raise. -/
def done (s : IState) : Except PyErr Bool :=
  if s.mapLive then .ok (s.map RET_OFFSET != 0) else .error .attrError

/-- Truthiness of the expression `self.done` on source line 274: it is the
*bound method object*, not a call of it, and a bound method is always
truthy in Python. -/
def doneMethodTruthy : Bool := true

/-- `Interpreter.result` (source lines 273–281).  Line 274 guards with
`if not self.done:` — see `doneMethodTruthy`: the guard is dead code, so
the intended `InvalidState` error (a name nowhere defined in the module)
is unreachable, and the code always proceeds to seek `RET_OFFSET` and
unpickle the return region.  Joins (and clears) the worker thread. -/
def result (s : IState) : Except PyErr (PyVal × IState) :=
  if ¬ doneMethodTruthy then .error .invalidState
  else if ¬ s.mapLive then .error .attrError
  else
    match dec s.map DEC_FUEL RET_OFFSET with
    | none => .error .unpicklingError
    | some (v, p) => .ok (v, { s with mapPos := p, thread := false })

/-! ### Worker lifecycle (`start`, source lines 54–67; `close`, lines 71–94) -/

/-- The state of the external isolation primitive: which sub-interpreter
ids have been created and not destroyed, and which are currently running.
Id 0 is the main interpreter (the value Python's `False` converts to). -/
structure IWorld where
  nextId : Nat
  live : List Nat
  running : List Nat

/-- `interpreters.destroy(self.intno)` (source line 76): succeeds only on a
live, non-running sub-interpreter id.  Passing `None` is a `TypeError`;
passing `False` (== 0) names the main interpreter, which cannot be
destroyed; a destroyed or running id is a `RuntimeError`.  `close` only
re-raises, so the distinctions collapse into one failure. -/
def destroyCtx (w : IWorld) : IntNo → Except Unit IWorld
  | .idV n => if n ∈ w.live ∧ n ∉ w.running then .ok { w with live := w.live.erase n } else .error ()
  | .noneV => .error ()
  | .falseV => .error ()

/-- Observable steps of `close`, in source order. -/
inductive CloseEffect where
  | destroyAttempt (i : IntNo)
  | mapClose
  | fileClose
  | unlink
  | deregister
deriving DecidableEq

/-- `Interpreter.close` (source lines 71–94), faithful to its lack of any
closed-state guard: it always first attempts `interpreters.destroy` on the
current `intno` and re-raises on failure (`except RuntimeError: raise`);
then `try: self.map.close(); self.file.close() finally: os.unlink(...)`
(`self.map` being `None` raises `AttributeError`, and the `finally` still
unlinks; unlinking an already-deleted file raises `FileNotFoundError`);
then sets `self.map = None`, `self.intno = False`, clears the thread and
removes itself from the weak registry — where line 89 spells the caught
exception `keyError`, an undefined name, so an actual `KeyError` would
surface as a `NameError`.  Errors are raised before any field assignment,
so error outcomes carry no mutated state. -/
def close (w : IWorld) (s : IState) : List CloseEffect × Except PyErr (IState × IWorld) :=
  match destroyCtx w s.intno with
  | .error _ => ([.destroyAttempt s.intno], .error .destroyError)
  | .ok w1 =>
    if ¬ s.mapLive then
      ([.destroyAttempt s.intno, .unlink], .error .attrError)
    else if ¬ s.fileLinked then
      ([.destroyAttempt s.intno, .mapClose, .fileClose, .unlink], .error .fileNotFound)
    else if ¬ s.registered then
      ([.destroyAttempt s.intno, .mapClose, .fileClose, .unlink], .error .nameError)
    else
      ([.destroyAttempt s.intno, .mapClose, .fileClose, .unlink, .deregister],
        .ok ({ s with
                mapLive := false
                fileLinked := false
                intno := .falseV
                thread := false
                registered := false }, w1))

/-- Observable steps of `start`, in source order. -/
inductive StartEffect where
  | createCtx
  | allocFile
  | runInitCode
deriving DecidableEq

/-- `Interpreter.start` (source lines 54–67): raises the already-started
`RuntimeError` whenever `self.intno is not None` — which the sentinel
`False` left by `close` also satisfies.  Otherwise creates a context,
allocates the zero-filled backing file and mapping, registers the worker
and installs the receiving-side code (`_init_interpreter`). -/
def start (w : IWorld) (s : IState) : List StartEffect × Except PyErr (IState × IWorld) :=
  if ¬ s.intno.isNoneV then ([], .error .alreadyStarted)
  else
    ([.createCtx, .allocFile, .runInitCode],
      .ok ({ s with
              intno := .idV w.nextId
              map := fun _ => 0
              mapPos := 0
              mapLive := true
              fileLinked := true
              thread := false
              registered := true },
        { w with nextId := w.nextId + 1, live := w.nextId :: w.live }))

/-- `Interpreter.run` (source lines 129–133): `execute`, then the answer is
retrieved synchronously with `result`. -/
def runCall (trigger : (Nat → Nat) → Except Nat (Nat → Nat)) (s : IState)
    (func args kwargs : PyVal) : List Effect × Except (PyErr × IState) (PyVal × IState) :=
  match execute trigger s func args kwargs with
  | (eff, .error e) => (eff, .error e)
  | (eff, .ok s2) =>
    match result s2 with
    | .error e => (eff, .error (e, s2))
    | .ok vs => (eff, .ok vs)

/-! ### The environment replicator (source lines 145–202)

`_source_handle`, `_handle_module` and `_prepare_interactive` rebuild part
of the controller's interactive `__main__` environment inside the worker
by running statements remotely through `self.run_string`.  The model keeps
the replication cache `self._source_handled`, the set of names defined in
the worker's top-level scope, and the trace of remotely executed
statements; a statement that raises inside the worker surfaces as
`interpreters.RunFailedError`, modelled as `Except.error`. -/

/-- A Python function object as the replicator sees it: `__name__`,
`__module__`, `hash(func)` (an opaque fingerprint) and
`inspect.getsource(func)`. -/
structure PyFunc where
  name : String
  module : String
  hashv : Nat
  source : String
deriving DecidableEq

/-- A value of the replication cache `self._source_handled`: either a
function fingerprint `hash(func)` or the string marker `"module"`. -/
inductive CacheVal where
  | fp (h : Nat)
  | moduleMark
deriving DecidableEq

/-- Python-dict lookup on the cache (`name in d` / `d[name]`). -/
def cacheGet : List (String × CacheVal) → String → Option CacheVal
  | [], _ => none
  | (k, v) :: rest, n => if k = n then some v else cacheGet rest n

/-- Python-dict store on the cache (`d[name] = v`). -/
def cacheSet : List (String × CacheVal) → String → CacheVal → List (String × CacheVal)
  | [], n, v => [(n, v)]
  | (k, w) :: rest, n, v => if k = n then (n, v) :: rest else (k, w) :: cacheSet rest n v

/-- The statements the replicator sends through `run_string`. -/
inductive Stmt where
  | shipSource (f : PyFunc)
  | importMod (m : String)
  | aliasAttr (name mod objName : String)
  | aliasMod (name mod : String)
deriving DecidableEq

/-- Replicator-side view of one worker: the cache, the names defined in
the worker's top-level scope, and the successfully executed statements. -/
structure RepState where
  cache : List (String × CacheVal)
  ns : List String
  trace : List Stmt
deriving DecidableEq

/-- Worker-side semantics of one replicated statement: running a
function's own source defines its name; `import m` succeeds exactly when
the module loads inside a sub-interpreter (`iOK m`); either alias
assignment needs its right-hand module name to be defined in the worker
scope, and raises a `NameError` (surfacing as `RunFailedError`) otherwise. -/
def wstepNs (iOK : String → Bool) (ns : List String) : Stmt → Except Unit (List String)
  | .shipSource f => .ok (f.name :: ns)
  | .importMod m => if iOK m then .ok (m :: ns) else .error ()
  | .aliasAttr name mod _ => if mod ∈ ns then .ok (name :: ns) else .error ()
  | .aliasMod name mod => if mod ∈ ns then .ok (name :: ns) else .error ()

/-- One `self.run_string(...)` call from the replicator: on success the
statement is appended to the trace and the worker scope is updated; on
failure the `RunFailedError` propagates to the caller of `run_string`. -/
def runStringM (iOK : String → Bool) (st : RepState) (stm : Stmt) : Except Unit RepState :=
  match wstepNs iOK st.ns stm with
  | .ok ns1 => .ok { st with ns := ns1, trace := st.trace ++ [stm] }
  | .error _ => .error ()

/-- `Interpreter._source_handle` (source lines 145–151): if the function's
name is cached with a fingerprint equal to `hash(func)`, return without
shipping anything; otherwise run its source remotely and record the
fingerprint under its name (a string `"module"` entry under the same name
never compares equal to a hash, so it is overwritten).  A failure of the
`run_string` would propagate. -/
def sourceHandle (iOK : String → Bool) (st : RepState) (f : PyFunc) :
    Except Unit RepState :=
  if cacheGet st.cache f.name = some (.fp f.hashv) then .ok st
  else
    match runStringM iOK st (.shipSource f) with
    | .error e => .error e
    | .ok st1 => .ok { st1 with cache := cacheSet st1.cache f.name (.fp f.hashv) }

/-- `Interpreter._handle_module` (source lines 153–162): for a non-empty
module name not yet in the cache, try `import {mod_name}` remotely; on
success record the `"module"` marker, and a `RunFailedError` is swallowed
(`except ...: pass`), leaving the cache unrecorded — this function itself
never raises. -/
def handleModule (iOK : String → Bool) (st : RepState) (m : String) : RepState :=
  if m ≠ "" ∧ cacheGet st.cache m = none then
    match runStringM iOK st (.importMod m) with
    | .ok st1 => { st1 with cache := cacheSet st1.cache m .moduleMark }
    | .error _ => st
  else st

/-- One top-level binding of the controller's `__main__` globals, as the
replication loop classifies it (source lines 187–200): a function object,
a module object (carrying its `__name__`), or anything else (skipped). -/
inductive Binding where
  | funcB (f : PyFunc)
  | modB (objName : String)
  | otherB
deriving DecidableEq

/-- The body of the `for name, obj in list(main_globals.items())` loop
(source lines 187–200) for one binding; `fname` is `func.__name__` of the
*target* callable being prepared.

* A function defined in `"__main__"` is shipped by source.
* A function from another module: `_handle_module` on its `__module__`,
  then — guarded by `if func.__name__ not in self._source_handled:`
  (line 194: the guard tests the target callable's name, not the
  binding's) — the alias `{name} = getattr({mod}, ...)` would be run.
* A module object: `_handle_module` on its `__name__`, then if bound
  under a different, uncached name, the alias `{name} = {mod}` is run —
  unguarded by whether the import just failed, so it can raise. -/
def bindingStep (iOK : String → Bool) (fname : String) (st : RepState)
    (name : String) (b : Binding) : Except Unit RepState :=
  match b with
  | .funcB g =>
    if g.module = "__main__" then sourceHandle iOK st g
    else
      let st1 := handleModule iOK st g.module
      if cacheGet st1.cache fname = none then
        runStringM iOK st1 (.aliasAttr name g.module g.name)
      else .ok st1
  | .modB objName =>
    let st1 := handleModule iOK st objName
    if objName ≠ name ∧ cacheGet st1.cache name = none then
      runStringM iOK st1 (.aliasMod name objName)
    else .ok st1
  | .otherB => .ok st

/-- The replication loop over the controller's top-level bindings; an
uncaught `RunFailedError` from any step aborts the remaining bindings. -/
def prepLoop (iOK : String → Bool) (fname : String) :
    RepState → List (String × Binding) → Except Unit RepState
  | st, [] => .ok st
  | st, (name, b) :: rest =>
    match bindingStep iOK fname st name b with
    | .error e => .error e
    | .ok st1 => prepLoop iOK fname st1 rest

/-- `Interpreter._prepare_interactive` (source lines 164–202): asserts the
target callable lives in `"__main__"`, ships its own source first
(`_source_handle`), then replicates the top-level bindings. -/
def prepareInteractive (iOK : String → Bool) (st : RepState) (f : PyFunc)
    (globals : List (String × Binding)) : Except Unit RepState :=
  if f.module ≠ "__main__" then .error ()
  else
    match sourceHandle iOK st f with
    | .error e => .error e
    | .ok st1 => prepLoop iOK f.name st1 globals

/-! ### Concrete inputs and states used by the claim theorems -/

/-- A freshly started worker: a live sub-interpreter id, a zero-filled
buffer (so the completion-flag byte at `RET_OFFSET` is 0), live mapping
and backing file, registered, no thread, no stored exception. -/
def sFresh : IState :=
  { intno := .idV 1, map := fun _ => 0, mapPos := 0, mapLive := true,
    fileLinked := true, thread := false, registered := true, exc := none }

/-- The external-interpreters world matching `sFresh`: id 1 is live. -/
def w0 : IWorld := { nextId := 2, live := [1], running := [] }

/-- The world after `close w0 sFresh` destroyed id 1. -/
def w1 : IWorld := { nextId := 2, live := [], running := [] }

/-- An importable callable sent by reference (`__module__` is `"mod"`). -/
def fS : PyVal := .funcRef 7 "mod"

/-- A small argument tuple `(3,)`. -/
def aSmall : PyVal := .consV (.natV 3) .nilV

/-- An argument tuple holding a 3,000,000-byte `bytes` object: its encoded
request totals 3,000,024 bytes — far below the 8,000,000-byte payload
region. -/
def aMid : PyVal := .consV (.blobRun 3000000 7) .nilV

/-- An argument tuple holding a 9,000,000-byte `bytes` object of `0xFF`
bytes: its encoded request totals 9,000,024 bytes — above the payload
region capacity, and its content bytes cover offset `RET_OFFSET`. -/
def aBig : PyVal := .consV (.blobRun 9000000 255) .nilV

/-- A worker whose previous call completed: the remote side left the first
byte of its pickled result (128, pickle's `PROTO` opcode) at `RET_OFFSET`. -/
def s80 : IState :=
  { sFresh with map := fun i => if i = RET_OFFSET then 128 else 0 }

/-- The state a successful `close w0 sFresh` leaves behind. -/
def sClosed : IState :=
  match (close w0 sFresh).2 with
  | .ok p => p.1
  | .error _ => sFresh

/-- The world a successful `close w0 sFresh` leaves behind. -/
def wAfter : IWorld :=
  match (close w0 sFresh).2 with
  | .ok p => p.2
  | .error _ => w0

/-- The state `executeWrite sFresh fS aSmall .nilV` reaches just before
the remote trigger. -/
def s2C : IState :=
  match (executeWrite sFresh fS aSmall PyVal.nilV).2 with
  | .ok s => s
  | .error _ => sFresh

/-- A remote trigger whose receiving-side routine raises: `run_string`
reports `RunFailedError` (diagnostic code 42) and leaves the buffer as it
was. -/
def trigFail : (Nat → Nat) → Except Nat (Nat → Nat) := fun _ => .error 42

/-- Every module imports successfully inside the worker. -/
def iokAll : String → Bool := fun _ => true

/-- Every module except `numpy` imports successfully inside the worker. -/
def iokNoNumpy : String → Bool := fun m => m != "numpy"

/-- Replication starts from an empty cache, empty worker scope, no trace. -/
def st0 : RepState := { cache := [], ns := [], trace := [] }

/-- The ad hoc target callable, defined at the interactive top level. -/
def fMain : PyFunc :=
  { name := "f", module := "__main__", hashv := 7,
    source := "def f(x): return helper(x) + 1" }

/-- A helper function visible in the controller top level but defined in
the importable module `helpers`. -/
def gHelper : PyFunc :=
  { name := "helper", module := "helpers", hashv := 11,
    source := "def helper(x): return x * 2" }

/-- A cache already holding `fMain`'s name with the matching fingerprint. -/
def stHit : RepState := { cache := [("f", .fp 7)], ns := ["f"], trace := [] }

/-- A cache holding `fMain`'s name with a stale fingerprint (the function
was redefined since it was shipped). -/
def stMiss : RepState := { cache := [("f", .fp 4)], ns := ["f"], trace := [] }

/-- The replication state right after shipping `fMain`'s own source. -/
def stF : RepState :=
  match sourceHandle iokNoNumpy st0 fMain with
  | .ok st => st
  | .error _ => st0

/-! ### Claim theorems -/

/-- Claim C1: refuted on the code.  The claim says every serializable
request encoded strictly below the payload region capacity (`RET_OFFSET`
bytes) is executed and its value returned; but `execute` compares the
write cursor against `BFSZ - RET_OFFSET` = 2,000,000 (source line 237),
so this 3,000,024-byte request — far below the 8,000,000-byte payload
capacity — makes `run` raise the payload-size `RuntimeError` instead of
returning a value, whatever the remote side would have done. -/
theorem run_rejects_midsized_payload (trigger : (Nat → Nat) → Except Nat (Nat → Nat)) :
    (enc fS).size + (enc aMid).size + (enc PyVal.nilV).size < PAYLOAD_BUFFER ∧
    ∃ s, runCall trigger sFresh fS aMid .nilV = ([], .error (.payloadTooLarge, s)) :=
  ⟨by decide, _, rfl⟩

/-- Claim C2: refuted on the code.  For this request of 9,000,024 encoded
bytes (at or above the payload capacity) `execute` does raise the
payload-size error without ever triggering remote execution (the effect
trace is empty), but the worker's state is *not* unchanged: each object is
pickled into the shared buffer *before* the size check, so the oversized
dump has already overwritten the completion-flag byte at `RET_OFFSET`
with a payload byte (255) by the time the error is raised. -/
theorem execute_oversized_payload_clobbers_flag
    (trigger : (Nat → Nat) → Except Nat (Nat → Nat)) :
    PAYLOAD_BUFFER ≤ (enc fS).size + (enc aBig).size + (enc PyVal.nilV).size ∧
    ∃ s, execute trigger sFresh fS aBig .nilV = ([], .error (.payloadTooLarge, s)) ∧
      s.map RET_OFFSET = 255 :=
  ⟨by decide, _, rfl, rfl⟩

/-- Claim C3: refuted on the code.  Source line 228 reads
`self.map[RET_OFFSET] == 0` — a comparison whose result is discarded, not
an assignment — so `execute` never resets the completion flag.  Starting
from a worker whose previous call completed (flag byte 128), the entire
pre-trigger phase of `execute` leaves the stale flag in place, and `done()`
reads `true` immediately after `execute()` begins a new call, before the
remote side has produced anything. -/
theorem executeWrite_leaves_stale_flag :
    ∃ s, (executeWrite s80 fS aSmall .nilV).2 = .ok s ∧
      s.map RET_OFFSET = 128 ∧ done s = .ok true :=
  ⟨_, rfl, rfl, rfl⟩

/-- Claim C4: refuted on the code.  `close` has no CLOSED-state guard:
called on the state that a completed `close` left behind (`intno` is the
sentinel `False`, buffer unmapped, file unlinked), it immediately attempts
`interpreters.destroy` a second time — on the sentinel — and that attempt
raises, so the second `close()` both re-attempts destruction and raises. -/
theorem close_after_close_raises :
    close w1 sClosed = ([.destroyAttempt .falseV], .error .destroyError) ∧
    CloseEffect.destroyAttempt .falseV ∈ (close w1 sClosed).1 :=
  ⟨rfl, by decide⟩

/-- Claim C5: refuted on the code.  With the worker freshly started the
completion flag is unset and `done()` returns `false`, yet `result()` does
not fail with the invalid-state error: line 274 tests the bound method
object `self.done` (always truthy) instead of calling it, so the guard is
dead and `result` proceeds to unpickle the zero-filled return region,
failing with an unpickling error instead. -/
theorem result_skips_invalid_state_guard :
    done sFresh = .ok false ∧ result sFresh = .error .unpicklingError :=
  ⟨rfl, rfl⟩

/-- Claim C6: confirmed.  Whenever the write phase of `execute` succeeds
and the remote trigger fails with a `RunFailedError`, `execute` sets the
completion-flag byte to the truthy value 1 (`self.map[RET_OFFSET] = True`),
stores the triggering error on the worker (`self.exception`), and
re-raises it to the caller — the flag is never left unset. -/
theorem execute_trigger_failure_sets_flag
    (trigger : (Nat → Nat) → Except Nat (Nat → Nat)) (s s2 : IState)
    (func args kwargs : PyVal) (eff : List Effect) (e : Nat)
    (hw : executeWrite s func args kwargs = (eff, .ok s2))
    (ht : trigger s2.map = .error e) :
    ∃ s3, execute trigger s func args kwargs =
        (eff ++ [Effect.triggerRun "_call(0)"], .error (.runFailed e, s3)) ∧
      s3.map RET_OFFSET = 1 ∧ s3.exc = some e := by
  refine ⟨{ s2 with map := setByte s2.map RET_OFFSET 1, exc := some e }, ?_, ?_, rfl⟩
  · unfold execute
    rw [hw]
    dsimp only
    rw [ht]
  · simp [setByte]

/-- Witness for C6 at a concrete input: a small request on a fresh worker
whose trigger fails with diagnostic code 42. -/
theorem execute_trigger_failure_sets_flag_witness :
    ∃ s3, execute trigFail sFresh fS aSmall .nilV =
        ([] ++ [Effect.triggerRun "_call(0)"], .error (.runFailed 42, s3)) ∧
      s3.map RET_OFFSET = 1 ∧ s3.exc = some 42 :=
  execute_trigger_failure_sets_flag trigFail sFresh s2C fS aSmall .nilV [] 42 rfl rfl

/-- Claim C7: confirmed.  `_source_handle` is idempotent on a cache hit:
if the function's name is recorded with a fingerprint equal to
`hash(func)`, nothing is shipped and the state is unchanged; if the name
is recorded with a different fingerprint, the source is re-shipped and the
cache entry updated to the new fingerprint. -/
theorem sourceHandle_fingerprint_cache (iOK : String → Bool) (st : RepState) (f : PyFunc) :
    (cacheGet st.cache f.name = some (.fp f.hashv) → sourceHandle iOK st f = .ok st) ∧
    (∀ h, cacheGet st.cache f.name = some (.fp h) → h ≠ f.hashv →
      sourceHandle iOK st f =
        .ok { cache := cacheSet st.cache f.name (.fp f.hashv)
              ns := f.name :: st.ns
              trace := st.trace ++ [.shipSource f] }) := by
  constructor
  · intro hc
    unfold sourceHandle
    rw [hc, if_pos rfl]
  · intro h hc hne
    unfold sourceHandle
    rw [hc, if_neg (by simpa using fun heq => hne heq)]
    rfl

/-- Witness for C7 at concrete inputs: a cache hit (matching fingerprint
7) ships nothing; a stale entry (fingerprint 4 against 7) re-ships and
updates the cache. -/
theorem sourceHandle_fingerprint_cache_witness :
    sourceHandle iokAll stHit fMain = .ok stHit ∧
    sourceHandle iokAll stMiss fMain =
      .ok { cache := cacheSet stMiss.cache fMain.name (.fp fMain.hashv)
            ns := fMain.name :: stMiss.ns
            trace := stMiss.trace ++ [.shipSource fMain] } :=
  ⟨(sourceHandle_fingerprint_cache iokAll stHit fMain).1 rfl,
   (sourceHandle_fingerprint_cache iokAll stMiss fMain).2 4 rfl (by decide)⟩

/-- Claim C8: refuted on the code.  Replicating an ad hoc callable `f`
whose top level binds `helper`, a function imported from module `helpers`:
the replicator does import the owning module, but the alias binding
`helper = getattr(helpers, ...)` is never executed, because the guard on
source line 194 tests `func.__name__` — the *target* callable's name,
which the preceding `_source_handle(func)` always put in the cache —
instead of the binding's name.  The resulting trace holds exactly the
source shipment and the module import, and no attribute-lookup alias
statement at all. -/
theorem prepareInteractive_never_binds_alias :
    ∃ st, prepareInteractive iokAll st0 fMain [("helper", .funcB gHelper)] = .ok st ∧
      st.trace = [.shipSource fMain, .importMod "helpers"] ∧
      (st.trace.filter fun stm =>
        match stm with
        | .aliasAttr _ _ _ => true
        | _ => false) = [] :=
  ⟨_, rfl, rfl, rfl⟩

/-- Claim C9: refuted on the code.  `_handle_module` itself does swallow a
failed `import numpy` (first conjunct: state returned unchanged, nothing
recorded, no exception) — but replication is *not* protected from the
failure: when the module was bound under the alias `np`, the very next,
unguarded statement `np = numpy` raises `NameError` inside the worker, and
that `RunFailedError` propagates out of `_prepare_interactive`, aborting
replication of the remaining bindings. -/
theorem prepareInteractive_failing_aliased_import_aborts :
    handleModule iokNoNumpy stF "numpy" = stF ∧
    prepareInteractive iokNoNumpy st0 fMain
      [("np", .modB "numpy"), ("h2", .funcB gHelper)] = .error () :=
  ⟨rfl, rfl⟩

/-- Claim C10: confirmed.  Whenever `close` completes successfully, the
worker's `intno` field holds the sentinel `False` (the constructor
`IntNo.falseV`, not `None`), and since `start` raises the already-started
`RuntimeError` whenever `intno is not None`, any subsequent `start` on the
closed worker fails: a closed worker can never be restarted. -/
theorem close_sentinel_blocks_restart (w w2 : IWorld) (s s2 : IState) (w3 : IWorld)
    (h : (close w s).2 = .ok (s2, w3)) :
    s2.intno = .falseV ∧ (start w2 s2).2 = .error .alreadyStarted := by
  unfold close at h
  split at h
  · exact absurd h (by simp)
  · split at h
    · exact absurd h (by simp)
    · split at h
      · exact absurd h (by simp)
      · split at h
        · exact absurd h (by simp)
        · simp only [Except.ok.injEq, Prod.mk.injEq] at h
          obtain ⟨hs, -⟩ := h
          subst hs
          exact ⟨rfl, rfl⟩

/-- Witness for C10 at a concrete input: closing a started worker yields
`sClosed`, whose `intno` is the sentinel and on which `start` fails. -/
theorem close_sentinel_blocks_restart_witness :
    sClosed.intno = .falseV ∧ (start w1 sClosed).2 = .error .alreadyStarted :=
  close_sentinel_blocks_restart w0 w1 sFresh sClosed wAfter rfl
